import Mathlib

/-!
# Silent Council — verification of the negotiation-and-settlement engine

Shallow embedding of the council engine (`src/lib/council/collapse-engine.ts`,
`negotiation-engine.ts`, `theater-engine.ts`, the settlement part of the
engine, and the escrow operations of the schedule engine), together with
theorems settling the specification's claims about budget conservation,
deadline protection, escrow monotonicity, convergence, voting, settlement
arithmetic and the RNG roll.

Modelling conventions:
* JavaScript numbers are rationals (`ℚ`); `Math.round` is `jsRound`
  (round half toward positive infinity, exactly JS semantics).
* `Math.random()` draws are threaded explicitly as draw functions `ℕ → ℚ`
  indexed by call site, so a fixed random source determines the whole
  computation; draws are assumed to lie in `[0, 1)` where an index is built
  from them.
* A JS `Map` is an insertion-ordered association list with overwriting
  `set` (`gmSet` / `gmGet`).
* Fields that only carry presentation text built from `Date.now()` or
  `Math.random()` ids (log ids, trade rationale strings, timestamps) are
  omitted; all numeric, grade and state fields are kept.
* A JS runtime `TypeError` (indexing `sorted[0]` of an empty array) is
  modelled by an `Option` result (`none` = crash).
-/

namespace Council

/-- JS `Math.round`: round half toward `+∞` (`Math.round(0.5) = 1`,
`Math.round(-0.5) = 0`), i.e. `⌊x + 1/2⌋`, result viewed back in `ℚ`. -/
def jsRound (x : ℚ) : ℚ := ((⌊x + 1/2⌋ : ℤ) : ℚ)

/-- The four fixed council agents (`AgentId` in `types.ts`). -/
inductive AgentId where
  | ENTJ | ISFJ | INFJ | ESTP
deriving DecidableEq, Repr

/-- Embedding of `ALL_AGENT_IDS` from `agents.ts`: the fixed iteration order. -/
def ALL_AGENT_IDS : List AgentId := [.ENTJ, .ISFJ, .INFJ, .ESTP]

/-- Quality grades (`TaskGrade` in `types.ts`). -/
inductive TaskGrade where
  | S | A | B | C | D
deriving DecidableEq, Repr

/-- Escrow states (`EscrowState` in `types.ts`). -/
inductive EscrowState where
  | PENDING | FROZEN | RELEASED | BURNED
deriving DecidableEq, Repr

/-- Embedding of `LEVEL_COST_MULTIPLIERS` from `types.ts`: `D=0, C=0.2, B=0.5, A=1.0, S=2.0`. -/
def LEVEL_COST_MULTIPLIERS : TaskGrade → ℚ
  | .D => 0
  | .C => 1/5
  | .B => 1/2
  | .A => 1
  | .S => 2

/-- Per-grade costs of one task (`TaskLevelCosts` in `types.ts`; the `desc` /
`outcome` display strings are omitted). -/
structure TaskLevelCosts where
  C : ℚ
  B : ℚ
  A : ℚ
  S : ℚ
deriving DecidableEq, Repr

/-- Embedding of `getTaskLevelCosts` from `types.ts`. -/
def getTaskLevelCosts (baseTokenCost : ℚ) : TaskLevelCosts :=
  { C := jsRound (baseTokenCost * (1/5))
    B := jsRound (baseTokenCost * (1/2))
    A := jsRound (baseTokenCost * 1)
    S := jsRound (baseTokenCost * 2) }

/-- Cost lookup `levelCosts[grade].cost`. The source object has no `D` entry;
every call site guards `grade ≠ D` first, so the `D` value is never read. -/
def TaskLevelCosts.costOf (c : TaskLevelCosts) : TaskGrade → ℚ
  | .C => c.C
  | .B => c.B
  | .A => c.A
  | .S => c.S
  | .D => 0

/-- Embedding of `gradeRank` from `collapse-engine.ts`: `S=4, A=3, B=2, C=1, D=0`. -/
def gradeRank : TaskGrade → ℕ
  | .S => 4
  | .A => 3
  | .B => 2
  | .C => 1
  | .D => 0

/-- Embedding of `lowerGrade` from `collapse-engine.ts`. -/
def lowerGrade : TaskGrade → TaskGrade
  | .S => .A
  | .A => .B
  | .B => .C
  | .C => .D
  | .D => .D

/-- Embedding of `raiseGrade` from `collapse-engine.ts`. -/
def raiseGrade : TaskGrade → TaskGrade
  | .D => .C
  | .C => .B
  | .B => .A
  | .A => .S
  | .S => .S

/-- Agent status enum (`AgentStatus` in `types.ts`). -/
inductive AgentStatus where
  | IDLE | ACTIVE | SPEAKING | TRADING | VETOING | SANCTIONED | WHISPERING
deriving DecidableEq, Repr

/-- The four resource channels (`ResourceInventory` in `types.ts`). -/
structure ResourceInventory where
  TIME : ℚ
  HP : ℚ
  SOC : ℚ
  WLTH : ℚ
deriving DecidableEq, Repr

/-- Per-session mutable agent record (`AgentState` in `types.ts`; the
`lastAction` display string is omitted). -/
structure AgentState where
  id : AgentId
  currentWeight : ℚ
  resourceInventory : ResourceInventory
  status : AgentStatus
  satisfaction : ℚ
  influence : ℚ
  isSanctioned : Bool
deriving DecidableEq, Repr

/-- The slice of `UserProfile` (`types.ts`) read by the collapse engine:
`mbtiType` (optional string) and `rigidityCoefficient`. The remaining
profile fields are never read by the embedded functions. -/
structure UserProfile where
  mbtiType : Option String
  rigidityCoefficient : ℚ
deriving DecidableEq, Repr

/-- The slice of `ScheduleBlock` (`types.ts`) read by the collapse engine and
escrow operations; presentation strings (`timeStart`, notes, …) are omitted. -/
structure ScheduleBlock where
  id : String
  taskName : String
  tokenCost : ℚ
  isDeadline : Bool
  isLocked : Bool
  ownerAgent : AgentId
  escrowState : Option EscrowState
  finalGrade : Option TaskGrade
deriving DecidableEq, Repr

/-- Offer side of a trade (`TradeProposal.offer` in `types.ts`). -/
structure TradeOffer where
  taskId : String
  downgradeFrom : TaskGrade
  downgradeTo : TaskGrade
  tokenFreed : ℚ
deriving DecidableEq, Repr

/-- Demand side of a trade (`TradeProposal.demand` in `types.ts`). -/
structure TradeDemand where
  taskId : String
  upgradeFrom : TaskGrade
  upgradeTo : TaskGrade
  tokenNeeded : ℚ
deriving DecidableEq, Repr

/-- Embedding of `TradeProposal` from `types.ts` (the random `id`, `rationale` text and
`timestamp` are omitted). -/
structure TradeProposal where
  sourceAgent : AgentId
  targetAgent : AgentId
  offer : TradeOffer
  demand : TradeDemand
  riskScore : ℚ
  benefitScore : ℚ
  accepted : Bool
deriving DecidableEq, Repr

/-- Embedding of `CollapseResult` from `types.ts` (the optional `category` display tag is
omitted). -/
structure CollapseResult where
  taskId : String
  taskName : String
  ownerAgent : AgentId
  initialGrade : TaskGrade
  finalGrade : TaskGrade
  tokenInvested : ℚ
  levelCosts : TaskLevelCosts
  tradedWith : Option AgentId
  isDeadline : Bool
deriving DecidableEq, Repr

/-- The slice of `CouncilContext` read by the collapse engine. -/
structure CouncilCtx where
  agentStates : List AgentState
  userProfile : UserProfile
deriving DecidableEq, Repr

-- ==================== JS Map and stable sort ====================

/-- JS `Array.prototype.some` (first match wins, written with `ite` so that
concrete instances evaluate by `simp`). -/
def anyQ (p : α → Bool) : List α → Bool
  | [] => false
  | x :: xs => if p x then true else anyQ p xs

/-- JS `Array.prototype.every`. -/
def allQ (p : α → Bool) : List α → Bool
  | [] => true
  | x :: xs => if p x then allQ p xs else false

/-- JS `Array.prototype.find`. -/
def findQ (p : α → Bool) : List α → Option α
  | [] => none
  | x :: xs => if p x then some x else findQ p xs

/-- JS `Array.prototype.filter`. -/
def filterQ (p : α → Bool) : List α → List α
  | [] => []
  | x :: xs => if p x then x :: filterQ p xs else filterQ p xs

/-- First non-`none` value of `f` along the list (an early-returning loop). -/
def findSomeQ (f : α → Option β) : List α → Option β
  | [] => none
  | x :: xs =>
    match f x with
    | some b => some b
    | none => findSomeQ f xs

/-- Value stored per task in the collapse engine's grade maps. -/
structure GradeInfo where
  grade : TaskGrade
  tokenSpent : ℚ
deriving DecidableEq, Repr

/-- Insertion-ordered map from task id to grade info (a JS `Map`). -/
abbrev GradeMap := List (String × GradeInfo)

/-- Embedding of `Map.get`. -/
def gmGet (m : GradeMap) (k : String) : Option GradeInfo :=
  match findQ (fun p => decide (p.1 = k)) m with
  | some p => some p.2
  | none => none

/-- Embedding of `Map.set`: overwrite in place if the key exists, otherwise append
(preserving JS `Map` insertion order). -/
def gmSet (m : GradeMap) (k : String) (v : GradeInfo) : GradeMap :=
  if anyQ (fun p => decide (p.1 = k)) m then
    m.map fun p => if p.1 = k then (k, v) else p
  else m ++ [(k, v)]

/-- Pointwise update of a per-agent record (JS `record[agent] = value`). -/
def updAgent (f : AgentId → ℚ) (a : AgentId) (v : ℚ) : AgentId → ℚ :=
  fun b => if b = a then v else f b

/-- Insert `x` in front of the first element it may precede. -/
def insertOrdered (le : α → α → Bool) (x : α) : List α → List α
  | [] => [x]
  | y :: ys => if le x y then x :: y :: ys else y :: insertOrdered le x ys

/-- Stable insertion sort; `le a b` means `a` may come before `b`. Matches a
JS stable `Array.prototype.sort` when `le` encodes `comparator(a,b) ≤ 0`. -/
def sortBy (le : α → α → Bool) : List α → List α
  | [] => []
  | x :: xs => insertOrdered le x (sortBy le xs)

-- ==================== Collapse engine (`collapse-engine.ts`) ====================

/-- Task plus its grade-cost table, as grouped in `collapseAllTasks`. -/
structure TaskMeta where
  block : ScheduleBlock
  levelCosts : TaskLevelCosts
  ownerAgent : AgentId
deriving DecidableEq, Repr

/-- Embedding of `calculateAgentBudgets` from `collapse-engine.ts`:
`budget = round(totalBudget × (weight / totalWeight) × (0.5 + sat/100 × 0.5))`,
with `totalWeight = Σ weight || 1`. -/
def calculateAgentBudgets (agents : List AgentState) (totalBudget : ℚ) :
    AgentId → ℚ :=
  let sumW := (agents.map (·.currentWeight)).sum
  let totalWeight := if sumW = 0 then 1 else sumW
  agents.foldl
    (fun budgets a =>
      let satMultiplier := 1/2 + (a.satisfaction / 100) * (1/2)
      let weightShare := a.currentWeight / totalWeight
      updAgent budgets a.id (jsRound (totalBudget * weightShare * satMultiplier)))
    (fun _ => 0)

/-- Sort order of `allocateGradesForAgent`: deadline tasks first, then
descending nominal cost (stable). -/
def allocationOrder (a b : TaskMeta) : Bool :=
  if a.block.isDeadline != b.block.isDeadline then a.block.isDeadline
  else decide (b.block.tokenCost ≤ a.block.tokenCost)

/-- Embedding of `allocateGradesForAgent` from `collapse-engine.ts`: greedy highest grade
that fits the remaining budget, `D` (cost 0) if even `C` does not fit. -/
def allocateGradesForAgent (tasks : List TaskMeta) (budget : ℚ) :
    GradeMap × ℚ :=
  (sortBy allocationOrder tasks).foldl
    (fun acc tm =>
      let (grades, remaining) := acc
      let costs := tm.levelCosts
      if remaining ≥ costs.S then
        (gmSet grades tm.block.id ⟨.S, costs.S⟩, remaining - costs.S)
      else if remaining ≥ costs.A then
        (gmSet grades tm.block.id ⟨.A, costs.A⟩, remaining - costs.A)
      else if remaining ≥ costs.B then
        (gmSet grades tm.block.id ⟨.B, costs.B⟩, remaining - costs.B)
      else if remaining ≥ costs.C then
        (gmSet grades tm.block.id ⟨.C, costs.C⟩, remaining - costs.C)
      else
        (gmSet grades tm.block.id ⟨.D, 0⟩, remaining))
    ([], budget)

/-- Embedding of `getAgentAffinity` from `collapse-engine.ts` (MBTI letter affinity). -/
def getAgentAffinity (agent : AgentId) (profile : UserProfile) : ℚ :=
  let mbti := profile.mbtiType.getD ""
  match agent with
  | .ENTJ => (if mbti.contains 'J' then 2/5 else 0) + (if mbti.contains 'T' then 3/10 else 0) + 3/10
  | .ISFJ => (if mbti.contains 'S' then 2/5 else 0) + (if mbti.contains 'I' then 3/10 else 0) + 3/10
  | .INFJ => (if mbti.contains 'F' then 2/5 else 0) + (if mbti.contains 'E' then 3/10 else 0) + 3/10
  | .ESTP => (if mbti.contains 'P' then 1/2 else 0) + 3/10

/-- Embedding of `calculateTradeRisk` from `collapse-engine.ts`. -/
def calculateTradeRisk (agent : AgentId) (block : ScheduleBlock)
    (fromGrade toGrade : TaskGrade) (profile : UserProfile) : ℚ :=
  ((gradeRank fromGrade : ℚ) - (gradeRank toGrade : ℚ)) * 20
    + (if block.isDeadline then 100 else 0)
    + getAgentAffinity agent profile * 15
    + min 30 (block.tokenCost / 50)

/-- Embedding of `calculateTradeBenefit` from `collapse-engine.ts` (the `taskName`
argument is unused in the source as well). -/
def calculateTradeBenefit (agent : AgentId) (_taskName : String)
    (fromGrade toGrade : TaskGrade) (profile : UserProfile) : ℚ :=
  ((gradeRank toGrade : ℚ) - (gradeRank fromGrade : ℚ)) * 25
    + getAgentAffinity agent profile * 20
    + (if agent = .ENTJ ∧ profile.rigidityCoefficient > 3/5 then 20 else 0)
    + (if agent = .ESTP ∧ profile.rigidityCoefficient < 2/5 then 15 else 0)

/-- Embedding of `attemptP2PTrade` from `collapse-engine.ts`: scan partners by descending
spare budget, find the first non-deadline task above `C` whose one-grade
downgrade frees at least half the needed tokens and whose benefit beats the
risk. -/
def attemptP2PTrade (requestingAgent : AgentId) (targetTaskId targetTaskName : String)
    (currentGrade desiredGrade : TaskGrade) (neededTokens : ℚ)
    (agentRemaining : AgentId → ℚ) (agentTasks : AgentId → List TaskMeta)
    (currentGrades : GradeMap) (userProfile : UserProfile) : Option TradeProposal :=
  let candidates :=
    sortBy (fun a b => decide (agentRemaining b ≤ agentRemaining a))
      (filterQ (fun a => decide (a ≠ requestingAgent) && decide (agentRemaining a > 0)) ALL_AGENT_IDS)
  findSomeQ (fun partnerAgent =>
    findSomeQ (fun pt =>
      if pt.block.isDeadline then none
      else
        match gmGet currentGrades pt.block.id with
        | none => none
        | some ptGrade =>
          if gradeRank ptGrade.grade ≤ gradeRank .C then none
          else
            let downgradeTarget := lowerGrade ptGrade.grade
            if downgradeTarget = .D then none
            else
              let tokenFreed := ptGrade.tokenSpent - pt.levelCosts.costOf downgradeTarget
              if tokenFreed < neededTokens * (1/2) then none
              else
                let riskScore := calculateTradeRisk partnerAgent pt.block ptGrade.grade downgradeTarget userProfile
                let benefitScore := calculateTradeBenefit requestingAgent targetTaskName currentGrade desiredGrade userProfile
                if benefitScore > riskScore then
                  some { sourceAgent := requestingAgent
                         targetAgent := partnerAgent
                         offer := ⟨pt.block.id, ptGrade.grade, downgradeTarget, tokenFreed⟩
                         demand := ⟨targetTaskId, currentGrade, desiredGrade, neededTokens⟩
                         riskScore := riskScore
                         benefitScore := benefitScore
                         accepted := true }
                else none) (agentTasks partnerAgent)) candidates

/-- Mutable state of the P2P trade loop (step 5 of `collapseAllTasks`). -/
structure TradeLoopState where
  adjusted : GradeMap
  remaining : AgentId → ℚ
  trades : List TradeProposal

/-- Output of `collapseAllTasks`. -/
structure CollapseOutput where
  results : List CollapseResult
  trades : List TradeProposal
deriving DecidableEq, Repr

/-- Embedding of `collapseAllTasks` from `collapse-engine.ts`: per-agent budgets, greedy
per-agent grade allocation, then the P2P trade pass, assembled into one
`CollapseResult` per task block. All mutation is threaded explicitly;
the budget bookkeeping of an accepted trade (crediting the freed tokens to
the requesting agent's remaining budget) follows the source line by line. -/
def collapseAllTasks (ctx : CouncilCtx) (blocks : List ScheduleBlock)
    (totalBudget : ℚ) : CollapseOutput :=
  let agentBudgets := calculateAgentBudgets ctx.agentStates totalBudget
  let taskMeta : List TaskMeta :=
    blocks.map fun b => ⟨b, getTaskLevelCosts b.tokenCost, b.ownerAgent⟩
  let agentTasks : AgentId → List TaskMeta :=
    fun a => filterQ (fun tm => decide (tm.ownerAgent = a)) taskMeta
  let init :=
    ALL_AGENT_IDS.foldl
      (fun (acc : GradeMap × (AgentId → ℚ)) agentId =>
        let alloc := allocateGradesForAgent (agentTasks agentId) (agentBudgets agentId)
        (alloc.1.foldl (fun m kv => gmSet m kv.1 kv.2) acc.1,
         updAgent acc.2 agentId alloc.2))
      ([], fun _ => 0)
  let initialGrades := init.1
  let final :=
    ALL_AGENT_IDS.foldl
      (fun (st : TradeLoopState) agentId =>
        match findQ (fun a => decide (a.id = agentId)) ctx.agentStates with
        | none => st
        | some state =>
          (agentTasks agentId).foldl
            (fun st tm =>
              match gmGet st.adjusted tm.block.id with
              | none => st
              | some current =>
                if state.satisfaction > 60 ∧ gradeRank current.grade < gradeRank .B then
                  let upgradeCost := tm.levelCosts.B - current.tokenSpent
                  if upgradeCost ≤ 0 then st
                  else
                    match attemptP2PTrade agentId tm.block.id tm.block.taskName
                        current.grade .B upgradeCost st.remaining agentTasks
                        st.adjusted ctx.userProfile with
                    | none => st
                    | some trade =>
                      let adj1 := gmSet st.adjusted trade.demand.taskId
                        ⟨trade.demand.upgradeTo, current.tokenSpent + trade.demand.tokenNeeded⟩
                      let offerOld := ((gmGet adj1 trade.offer.taskId).map (·.tokenSpent)).getD 0
                      let adj2 := gmSet adj1 trade.offer.taskId
                        ⟨trade.offer.downgradeTo, jsRound (offerOld - trade.offer.tokenFreed)⟩
                      let rem1 := updAgent st.remaining trade.sourceAgent
                        (st.remaining trade.sourceAgent + trade.offer.tokenFreed - trade.demand.tokenNeeded)
                      { adjusted := adj2, remaining := rem1, trades := st.trades ++ [trade] }
                else st)
            st)
      ⟨initialGrades, init.2, []⟩
  let results : List CollapseResult :=
    taskMeta.map fun tm =>
      let gradeInfo := (gmGet final.adjusted tm.block.id).getD ⟨.C, 0⟩
      let trade := findQ (fun t =>
        decide (t.demand.taskId = tm.block.id) || decide (t.offer.taskId = tm.block.id)) final.trades
      { taskId := tm.block.id
        taskName := tm.block.taskName
        ownerAgent := tm.ownerAgent
        initialGrade := ((gmGet initialGrades tm.block.id).map (·.grade)).getD .C
        finalGrade := gradeInfo.grade
        tokenInvested := gradeInfo.tokenSpent
        levelCosts := tm.levelCosts
        tradedWith := trade.map fun t =>
          if t.sourceAgent = tm.ownerAgent then t.targetAgent else t.sourceAgent
        isDeadline := tm.block.isDeadline }
  { results := results, trades := final.trades }

/-- Embedding of `validateCollapseResults` from `collapse-engine.ts`, as the `valid` flag:
no invalid grade, no deadline task at grade `D`, no negative investment. -/
def validateCollapseResults (results : List CollapseResult) : Bool :=
  allQ (fun r =>
    !(decide ((gradeRank r.finalGrade : ℤ) < 0)
      || (r.isDeadline && decide (r.finalGrade = .D))
      || decide (r.tokenInvested < 0))) results

/-- Display name of an agent id (used in generated task ids). -/
def AgentId.name : AgentId → String
  | .ENTJ => "ENTJ"
  | .ISFJ => "ISFJ"
  | .INFJ => "INFJ"
  | .ESTP => "ESTP"

/-- Chinese role label (`AGENT_DEFINITIONS[id].roleCn` in `agents.ts`). -/
def AgentId.roleCn : AgentId → String
  | .ENTJ => "分析家"
  | .ISFJ => "守护者"
  | .INFJ => "外交家"
  | .ESTP => "探险家"

/-- Embedding of `collapseFromAgentStates` from `collapse-engine.ts`: the simplified
collapse used by the orchestrator — one virtual task per agent state,
graded from a weight/satisfaction composite. -/
def collapseFromAgentStates (ctx : CouncilCtx) : List CollapseResult :=
  ctx.agentStates.map fun agent =>
    let composite := (agent.currentWeight / 4 * 50) + (agent.satisfaction / 100 * 50)
    let grade : TaskGrade :=
      if composite ≥ 80 then .S
      else if composite ≥ 60 then .A
      else if composite ≥ 40 then .B
      else if composite ≥ 20 then .C
      else .D
    let tokenInvested := jsRound (agent.currentWeight * 25)
    let baseCost := tokenInvested * 2
    { taskId := "agent_task_" ++ agent.id.name
      taskName := agent.id.roleCn ++ "管辖任务"
      ownerAgent := agent.id
      initialGrade := grade
      finalGrade := grade
      tokenInvested := tokenInvested
      levelCosts := getTaskLevelCosts baseCost
      tradedWith := none
      isDeadline := false }

-- ==================== Negotiation engine (`negotiation-engine.ts`) ====================

/-- Vote kinds (`VoteParams.vote` in `types.ts`). -/
inductive VoteKind where
  | APPROVE | REJECT | ABSTAIN | VETO
deriving DecidableEq, Repr

/-- One agent's vote entry (the `reason` display string is omitted). -/
structure VoteEntry where
  vote : VoteKind
  weight : ℚ
deriving DecidableEq, Repr

/-- Tally outcomes (`VoteResult.result` in `negotiation-engine.ts`). -/
inductive VoteOutcome where
  | APPROVED | REJECTED | VETOED | DEADLOCKED
deriving DecidableEq, Repr

/-- Embedding of `VoteResult` from `negotiation-engine.ts` (the echoed `votes` record is
omitted; it is the input itself). -/
structure VoteResult where
  proposalId : String
  result : VoteOutcome
  vetoAgent : Option AgentId
  approvalScore : ℚ
  totalWeight : ℚ
deriving DecidableEq, Repr

/-- Change of `tallyVotes`'s accumulator `(approvalScore, totalWeight, vetoAgent)`
for one agent (the loop body of `tallyVotes` in `negotiation-engine.ts`). -/
def tallyStep (votes : AgentId → VoteEntry) (acc : ℚ × ℚ × Option AgentId)
    (agentId : AgentId) : ℚ × ℚ × Option AgentId :=
  let v := votes agentId
  let totalWeight := acc.2.1 + v.weight
  match v.vote with
  | .VETO => (acc.1, totalWeight, some agentId)
  | .APPROVE => (acc.1 + v.weight, totalWeight, acc.2.2)
  | .REJECT => (acc.1 - v.weight, totalWeight, acc.2.2)
  | .ABSTAIN => (acc.1, totalWeight, acc.2.2)

/-- Embedding of `tallyVotes` from `negotiation-engine.ts`: iterate the vote record in key
order, sum signed weights, remember the (last) vetoing agent; any veto forces
`VETOED`, otherwise the sign of the signed sum decides. -/
def tallyVotes (votes : AgentId → VoteEntry) (proposalId : String) : VoteResult :=
  let st := ALL_AGENT_IDS.foldl (tallyStep votes) (0, 0, none)
  let result : VoteOutcome :=
    if st.2.2.isSome then .VETOED
    else if st.1 > 0 then .APPROVED
    else if st.1 < 0 then .REJECTED
    else .DEADLOCKED
  { proposalId := proposalId
    result := result
    vetoAgent := st.2.2
    approvalScore := st.1
    totalWeight := st.2.1 }

/-- The dominance order of `forceConvergence`: descending weight, ties broken
by descending satisfaction. -/
def dominanceOrder (a b : AgentState) : Bool :=
  if a.currentWeight = b.currentWeight then decide (b.satisfaction ≤ a.satisfaction)
  else decide (b.currentWeight < a.currentWeight)

/-- Embedding of `sorted[0].id` of the dominance sort; `none` on an empty list (where the
source would throw a `TypeError`). -/
def dominantOf (agentStates : List AgentState) : Option AgentId :=
  ((sortBy dominanceOrder agentStates).head?).map (·.id)

/-- Decision of `forceConvergence` (the Chinese `convergenceAction` narration
is reduced to the dominant agent named in it). -/
structure ConvergenceDecision where
  shouldForce : Bool
  dominant : Option AgentId
deriving DecidableEq, Repr

/-- Satisfaction stability test of `forceConvergence`: variance `< 15` and
max-min spread `< 20`. On an empty agent list the source computes
`variance = NaN`, and `NaN < 15` is `false`; the explicit emptiness guard
mirrors that. -/
def satisfactionStable (agentStates : List AgentState) : Bool :=
  let sats := agentStates.map (·.satisfaction)
  let maxSat := sats.max?.getD 0
  let minSat := sats.min?.getD 0
  let avgSat := sats.sum / (sats.length : ℚ)
  let variance := (sats.map fun s => (s - avgSat) ^ 2).sum / (sats.length : ℚ)
  !agentStates.isEmpty && decide (variance < 15) && decide (maxSat - minSat < 20)

/-- Weight stability test of `forceConvergence`: with a previous snapshot of
matching length, the largest absolute per-agent weight change is `< 0.15`
(an agent missing from the snapshot counts as change `1`). -/
def weightStable (agentStates : List AgentState)
    (previousStates : Option (List AgentState)) : Bool :=
  match previousStates with
  | none => false
  | some prev =>
    decide (prev.length = agentStates.length) &&
      decide (((agentStates.map fun curr =>
        (match findQ (fun p => decide (p.id = curr.id)) prev with
          | some p => |curr.currentWeight - p.currentWeight|
          | none => 1 : ℚ)).max?.getD 0) < 3/20)

/-- Embedding of `forceConvergence` from `negotiation-engine.ts`: never before `minRounds`;
between `minRounds` and `maxRounds` only when satisfaction and weights are
both stable; at or beyond `maxRounds` always (there the source indexes
`sorted[0]` and throws on an empty agent list, modelled by `none`). -/
def forceConvergence (agentStates : List AgentState) (round maxRounds minRounds : ℕ)
    (previousStates : Option (List AgentState)) : Option ConvergenceDecision :=
  if round < minRounds then some ⟨false, none⟩
  else if round < maxRounds then
    if satisfactionStable agentStates && weightStable agentStates previousStates then
      match dominantOf agentStates with
      | none => none
      | some d => some ⟨true, some d⟩
    else some ⟨false, none⟩
  else
    match dominantOf agentStates with
    | none => none
    | some d => some ⟨true, some d⟩

-- ==================== Theater engine (`theater-engine.ts`) ====================

/-- Log entry kinds (`LogType` in `types.ts`). -/
inductive LogType where
  | SYSTEM | SPEECH | PROPOSAL | COUNTER | VETO | CONSENSUS | NARRATION
  | WHISPER | BOTTOM_LINE_ALERT
deriving DecidableEq, Repr

/-- The slice of `CouncilLogEntry` (`types.ts`) read by speaker selection:
author and entry kind (content, id, metadata and timestamp are omitted). -/
structure CouncilLogEntry where
  agentId : Option AgentId
  type : LogType
deriving DecidableEq, Repr

/-- JS `array.slice(-n)`: the last `n` elements. -/
def lastN (n : ℕ) (l : List α) : List α := l.drop (l.length - n)

/-- First-occurrence deduplication (JS `Set` insertion order). -/
def dedupFirstAux (seen : List AgentId) : List AgentId → List AgentId
  | [] => []
  | x :: xs =>
    if anyQ (fun y => decide (y = x)) seen then dedupFirstAux seen xs
    else x :: dedupFirstAux (seen ++ [x]) xs

/-- Distinct elements in first-occurrence order. -/
def dedupFirst (l : List AgentId) : List AgentId := dedupFirstAux [] l

/-- Result of `selectSpeakerForTick` (speaker plus the reason label). -/
structure SpeakerSelection where
  speaker : AgentId
  reason : String
deriving DecidableEq, Repr

/-- The base rotation of `selectSpeakerForTick`: the agent at `tick mod 4`,
advanced one position when that agent authored one of the recent entries. -/
def rotationSpeaker (tick : ℕ) (recentSpeakers : List AgentId) : AgentId :=
  let allIds : List AgentId := [.ENTJ, .ISFJ, .INFJ, .ESTP]
  let baseIdx := tick % allIds.length
  if anyQ (fun a => decide (a = allIds.getD baseIdx .ENTJ)) recentSpeakers then
    allIds.getD ((baseIdx + 1) % allIds.length) .ENTJ
  else allIds.getD baseIdx .ENTJ

/-- Embedding of `selectSpeakerForTick` from `theater-engine.ts`: round-robin by
`tick mod 4`; if that agent authored one of the last two log entries, advance
one position; every 7th tick a conflict agent from the last six entries may
cut in when it did not speak in the last two turns. The `agentStates`
argument is unused in the source as well. -/
def selectSpeakerForTick (tick : ℕ) (_agentStates : List AgentState)
    (recentLogs : List CouncilLogEntry) : SpeakerSelection :=
  let recentSpeakers := (lastN 2 recentLogs).filterMap (·.agentId)
  let speaker := rotationSpeaker tick recentSpeakers
  if tick % 7 = 0 then
    let conflictAgents := dedupFirst ((lastN 6 recentLogs).filterMap fun log =>
      if log.type = .COUNTER ∨ log.type = .VETO then log.agentId else none)
    if !conflictAgents.isEmpty
        && !(anyQ (fun a => decide (a = speaker)) recentSpeakers) then
      match findQ (fun a => !(anyQ (fun b => decide (b = a)) recentSpeakers)) conflictAgents with
      | some conflictSpeaker => ⟨conflictSpeaker, "争议热点"⟩
      | none => ⟨speaker, "轮值发言"⟩
    else ⟨speaker, "轮值发言"⟩
  else ⟨speaker, "轮值发言"⟩

-- ==================== Escrow operations (`schedule-engine.ts`) ====================

/-- Embedding of `freezeEscrow` from the schedule engine, on one block: `RELEASED` and
`BURNED` are kept, anything else becomes `FROZEN`. -/
def freezeEscrowBlock (b : ScheduleBlock) : ScheduleBlock :=
  { b with escrowState :=
      if b.escrowState = some .RELEASED ∨ b.escrowState = some .BURNED then b.escrowState
      else some .FROZEN }

/-- Embedding of `freezeEscrow` from the schedule engine (maps `freezeEscrowBlock`). -/
def freezeEscrow (blocks : List ScheduleBlock) : List ScheduleBlock :=
  blocks.map freezeEscrowBlock

/-- Payout multiplier used by `releaseEscrow`: `S=2, A=1.5, B=1, C=0.5, D=0`. -/
def payoutMultiplier : TaskGrade → ℚ
  | .S => 2
  | .A => 3/2
  | .B => 1
  | .C => 1/2
  | .D => 0

/-- Embedding of `releaseEscrow` from the schedule engine: unconditionally set
`RELEASED`, record the grade and pay out the grade-multiplied cost. -/
def releaseEscrow (block : ScheduleBlock) (grade : TaskGrade) : ScheduleBlock :=
  { block with
    escrowState := some .RELEASED
    finalGrade := some grade
    tokenCost := jsRound (block.tokenCost * payoutMultiplier grade) }

/-- One escrow operation of the schedule engine's public API. -/
inductive EscrowOp where
  | freeze
  | release (grade : TaskGrade)
deriving DecidableEq, Repr

/-- Apply one escrow operation to a block. -/
def applyEscrowOp (b : ScheduleBlock) : EscrowOp → ScheduleBlock
  | .freeze => freezeEscrowBlock b
  | .release g => releaseEscrow b g

/-- Apply a sequence of escrow operations left to right. -/
def applyEscrowOps (b : ScheduleBlock) (ops : List EscrowOp) : ScheduleBlock :=
  ops.foldl applyEscrowOp b

-- ==================== Settlement engine (`The Roll`) ====================

/-- RNG outcome kinds (`RNGResultType` in `types.ts`). -/
inductive RNGResultType where
  | CRITICAL_SUCCESS | SUCCESS | BARELY_PASSED | CRITICAL_FAIL
deriving DecidableEq, Repr

/-- Embedding of `RNG_NARRATIVES` from `types.ts`. -/
def RNG_NARRATIVES : RNGResultType → List String
  | .CRITICAL_SUCCESS =>
    ["AI写的代码被GitHub推荐了！", "灵感爆发，产出质量远超计划！",
     "任务完成后获得意外的合作邀约！", "作品在社交媒体上意外走红！"]
  | .SUCCESS =>
    ["任务顺利完成，获得标准经验值。", "稳定发挥，一切按计划进行。",
     "不出意外地完成了，没有惊喜也没有意外。"]
  | .BARELY_PASSED =>
    ["虽然跑通了，但全是Warning。", "勉强交差，质量堪忧。",
     "最后一秒才搞定，差点翻车。"]
  | .CRITICAL_FAIL =>
    ["AI在生成过程中产生幻觉，输出了一堆乱码。", "任务彻底失败，Token化为乌有。",
     "关键数据丢失，一切需要从头再来。"]

/-- Embedding of `RNGResult` from `types.ts`; the partial `statChanges` record is kept as
the two optionally-set channels (`SOC`, `HP`). -/
structure RNGResult where
  type : RNGResultType
  score : ℚ
  luck : ℚ
  statSOC : Option ℚ
  statHP : Option ℚ
  narrative : String
deriving DecidableEq, Repr

/-- Embedding of `rollEnhanced` from the settlement engine:
`luck = clamp(-0.5 + draw 0 + luckModifier)`,
`score = round(invested × gradeMultiplier × (1 + luck))`, thresholded into
the four outcome types; grade `D` or non-positive investment is forced to
`CRITICAL_FAIL` afterwards (keeping any `SOC` bonus already set, as the
source mutation does). `draw 1` picks the narrative line. -/
def rollEnhanced (draw : ℕ → ℚ) (tokenInvested : ℚ) (grade : TaskGrade)
    (luckModifier : ℚ) : RNGResult :=
  let baseLuck := -(1/2) + draw 0
  let luck := max (-(1/2)) (min (1/2) (baseLuck + luckModifier))
  let gradeMultiplier := LEVEL_COST_MULTIPLIERS grade
  let score := jsRound (tokenInvested * gradeMultiplier * (1 + luck))
  let criticalThreshold := max 250 (tokenInvested * (3/2))
  let branch : RNGResultType × Option ℚ × Option ℚ :=
    if score > criticalThreshold then (.CRITICAL_SUCCESS, some 10, some 5)
    else if score > tokenInvested * (1/2) then (.SUCCESS, none, none)
    else if score > 0 then (.BARELY_PASSED, none, some (-5))
    else (.CRITICAL_FAIL, none, some (-20))
  let final : RNGResultType × Option ℚ × Option ℚ :=
    if grade = .D ∨ tokenInvested ≤ 0 then (.CRITICAL_FAIL, branch.2.1, some (-20))
    else branch
  let narratives := RNG_NARRATIVES final.1
  { type := final.1
    score := score
    luck := luck
    statSOC := final.2.1
    statHP := final.2.2
    narrative := narratives.getD (Int.toNat ⌊draw 1 * (narratives.length : ℚ)⌋) "" }

/-- Event-card kinds (`EventCardType` in `types.ts`). -/
inductive EventCardType where
  | CRITICAL_SUCCESS | SUCCESS | BARELY_PASSED | CRITICAL_FAIL
  | SPECIAL_ITEM | COMBO_BONUS | MELTDOWN_RECOVERY
deriving DecidableEq, Repr

/-- The embedding of an RNG outcome into the card kinds. -/
def RNGResultType.toEventCardType : RNGResultType → EventCardType
  | .CRITICAL_SUCCESS => .CRITICAL_SUCCESS
  | .SUCCESS => .SUCCESS
  | .BARELY_PASSED => .BARELY_PASSED
  | .CRITICAL_FAIL => .CRITICAL_FAIL

/-- Card rarity levels. -/
inductive CardRarity where
  | common | rare | epic | legendary
deriving DecidableEq, Repr

/-- Embedding of `determineCardRarity` from the settlement engine. -/
def determineCardRarity (rngType : RNGResultType) (grade : TaskGrade) : CardRarity :=
  if rngType = .CRITICAL_SUCCESS ∧ (grade = .S ∨ grade = .A) then .legendary
  else if rngType = .CRITICAL_SUCCESS then .epic
  else if rngType = .SUCCESS ∧ grade = .S then .epic
  else if rngType = .SUCCESS then .rare
  else if rngType = .CRITICAL_FAIL then .rare
  else .common

/-- The four card stat channels (`EventCard.statChanges` in `types.ts`). -/
structure StatChanges where
  professional : ℚ
  social : ℚ
  sanity : ℚ
  wealth : ℚ
deriving DecidableEq, Repr

/-- Embedding of `calculateStatChanges` from the settlement engine: base deltas per
outcome, scaled by a per-grade multiplier and a per-agent personality
multiplier (all with JS rounding at each step). -/
def calculateStatChanges (type : RNGResultType) (grade : TaskGrade)
    (agent : AgentId) : StatChanges :=
  let base : StatChanges :=
    match type with
    | .CRITICAL_SUCCESS => ⟨5, 10, 5, 20⟩
    | .SUCCESS => ⟨3, 0, 0, 5⟩
    | .BARELY_PASSED => ⟨-5, 0, -3, 0⟩
    | .CRITICAL_FAIL => ⟨-10, 0, -20, -10⟩
  let multiplier : ℚ :=
    match grade with
    | .S => 2
    | .A => 3/2
    | .B => 1
    | .C => 1/2
    | .D => 1/10
  let scaled : StatChanges :=
    { professional := jsRound (base.professional * multiplier)
      social := jsRound (base.social * multiplier)
      sanity := base.sanity
      wealth := jsRound (base.wealth * multiplier) }
  match agent with
  | .ENTJ => { scaled with professional := jsRound (scaled.professional * (13/10)) }
  | .ISFJ => { scaled with
      sanity := jsRound (scaled.sanity * (12/10))
      wealth := jsRound (scaled.wealth * (13/10)) }
  | .INFJ => { scaled with social := jsRound (scaled.social * (15/10)) }
  | .ESTP =>
    if type = .CRITICAL_SUCCESS ∨ type = .CRITICAL_FAIL then
      { scaled with wealth := jsRound (scaled.wealth * (15/10)) }
    else scaled

/-- Embedding of `SPECIAL_ITEMS` pool from `types.ts`, identified by item id. -/
def SPECIAL_ITEMS : List String :=
  ["TIME_SHARD", "LUCK_CHARM", "SHIELD", "COFFEE", "INSPIRE", "SOCIAL_BOOST"]

/-- Embedding of `rollSpecialItems` from the settlement engine: only a critical success
can drop (chance `S=1, A=0.6, B=0.3, C=0.1, D=0`); a grade-`S` drop has a
30% chance of a second, distinct item. `draw 0` is the drop check, `draw 1`
the item pick, `draw 2` the double-drop check, `draw 3` the second pick. -/
def rollSpecialItems (draw : ℕ → ℚ) (type : RNGResultType) (grade : TaskGrade) :
    List String :=
  if type ≠ .CRITICAL_SUCCESS then []
  else
    let chance : ℚ :=
      match grade with
      | .S => 1
      | .A => 3/5
      | .B => 3/10
      | .C => 1/10
      | .D => 0
    if draw 0 > chance then []
    else
      let item := SPECIAL_ITEMS.getD (Int.toNat ⌊draw 1 * (SPECIAL_ITEMS.length : ℚ)⌋) ""
      if grade = .S ∧ draw 2 < 3/10 then
        let pool := SPECIAL_ITEMS.filter fun i => decide (i ≠ item)
        let second := pool.getD (Int.toNat ⌊draw 3 * ((SPECIAL_ITEMS.length - 1 : ℕ) : ℚ)⌋) ""
        [item, second]
      else [item]

/-- The slice of `EventCard` (`types.ts`) carrying the settlement data; the
narrative, subtitle and description strings and the random card id are
omitted. -/
structure EventCard where
  type : EventCardType
  taskId : String
  taskName : String
  ownerAgent : AgentId
  grade : TaskGrade
  score : ℚ
  luck : ℚ
  statChanges : StatChanges
  specialItems : List String
  cardRarity : CardRarity
deriving DecidableEq, Repr

/-- Embedding of `generateEventCard` from the settlement engine. Randomness is drawn from
one per-card draw function: `rollEnhanced` uses draws 0–1, the item roll
draws 2–5 (the subtitle pick of the source consumes a further draw that
affects only an omitted display string). A non-empty item drop relabels the
card `SPECIAL_ITEM`. -/
def generateEventCard (draw : ℕ → ℚ) (collapse : CollapseResult)
    (luckModifier : ℚ) : EventCard :=
  let rngResult := rollEnhanced draw collapse.tokenInvested collapse.finalGrade luckModifier
  let statChanges := calculateStatChanges rngResult.type collapse.finalGrade collapse.ownerAgent
  let specialItems := rollSpecialItems (fun i => draw (2 + i)) rngResult.type collapse.finalGrade
  { type := if specialItems.isEmpty then rngResult.type.toEventCardType else .SPECIAL_ITEM
    taskId := collapse.taskId
    taskName := collapse.taskName
    ownerAgent := collapse.ownerAgent
    grade := collapse.finalGrade
    score := rngResult.score
    luck := rngResult.luck
    statChanges := statChanges
    specialItems := specialItems
    cardRarity := determineCardRarity rngResult.type collapse.finalGrade }

/-- Result of `calculateComboBonus`. -/
structure ComboBonus where
  comboCount : ℕ
  bonusStats : StatChanges
  bonusItem : Option String
deriving DecidableEq, Repr

/-- Embedding of `calculateComboBonus` from the settlement engine: with at least two
`SUCCESS`/`CRITICAL_SUCCESS` cards, a `min(3, streak-1)`-scaled stat bundle,
and the `INSPIRE` item at a streak of three or more. -/
def calculateComboBonus (cards : List EventCard) : ComboBonus :=
  let successStreak :=
    (cards.filter fun c => decide (c.type = .CRITICAL_SUCCESS) || decide (c.type = .SUCCESS)).length
  if successStreak < 2 then ⟨0, ⟨0, 0, 0, 0⟩, none⟩
  else
    let comboMultiplier : ℚ := min 3 ((successStreak : ℚ) - 1)
    { comboCount := successStreak
      bonusStats := ⟨5 * comboMultiplier, 3 * comboMultiplier, 2 * comboMultiplier, 10 * comboMultiplier⟩
      bonusItem := if successStreak ≥ 3 then some "INSPIRE" else none }

/-- Embedding of `SettlementReport.tokenSettlement` from `types.ts`. -/
structure TokenSettlement where
  totalBudget : ℚ
  totalSpent : ℚ
  totalRemaining : ℚ
  surplus : ℚ
  carryOver : ℚ
  meltdownOccurred : Bool
deriving DecidableEq, Repr

/-- The slice of `SettlementReport` (`types.ts`) carrying the settlement
data; highlight/deliverable/narrative display strings and durations are
omitted. -/
structure SettlementReport where
  overallGrade : TaskGrade
  collapseResults : List CollapseResult
  eventCards : List EventCard
  tokenSettlement : TokenSettlement
  statDelta : StatChanges
  itemsEarned : List String
deriving DecidableEq, Repr

/-- Embedding of `calculateOverallGrade` from the settlement engine: `D` on meltdown,
otherwise an average of per-card base points plus grade bonus plus a stat
bonus, mapped onto the grade scale. -/
def calculateOverallGrade (cards : List EventCard) (statDelta : StatChanges)
    (meltdown : Bool) : TaskGrade :=
  if meltdown then .D
  else
    let score : ℚ :=
      cards.foldl
        (fun s c =>
          let base : ℚ :=
            match c.type with
            | .CRITICAL_SUCCESS => 30
            | .SUCCESS => 15
            | .BARELY_PASSED => 5
            | .CRITICAL_FAIL => -20
            | _ => 0
          let gradeBonus : ℚ :=
            match c.grade with
            | .S => 10
            | .A => 7
            | .B => 4
            | .C => 1
            | .D => -5
          s + base + gradeBonus)
        0
    let totalStatChange := statDelta.professional + statDelta.social + statDelta.sanity + statDelta.wealth
    let score := score + jsRound (totalStatChange / 10)
    let avgScore := if cards.length > 0 then score / (cards.length : ℚ) else 0
    if avgScore ≥ 30 then .S
    else if avgScore ≥ 18 then .A
    else if avgScore ≥ 8 then .B
    else if avgScore ≥ 0 then .C
    else .D

/-- Embedding of `buildSettlementReport` from the settlement engine, on the settlement
data: per-task event cards (card `i` drawing from `draw i`), combo bonus,
stat aggregation, token close-out
(`spent = Σ tokenInvested`, `remaining = max(0, budget - spent)`,
`carryOver = round(remaining × 0.5)`, `meltdown = spent > budget × 1.2`)
and the overall grade. -/
def buildSettlementReport (collapseResults : List CollapseResult)
    (totalBudget : ℚ) (luckModifier : ℚ) (draw : ℕ → ℕ → ℚ) : SettlementReport :=
  let eventCards : List EventCard :=
    collapseResults.enum.map fun p => generateEventCard (draw p.1) p.2 luckModifier
  let combo := calculateComboBonus eventCards
  let cardDelta : StatChanges :=
    eventCards.foldl
      (fun s c =>
        ⟨s.professional + c.statChanges.professional, s.social + c.statChanges.social,
         s.sanity + c.statChanges.sanity, s.wealth + c.statChanges.wealth⟩)
      ⟨0, 0, 0, 0⟩
  let statDelta : StatChanges :=
    ⟨cardDelta.professional + combo.bonusStats.professional,
     cardDelta.social + combo.bonusStats.social,
     cardDelta.sanity + combo.bonusStats.sanity,
     cardDelta.wealth + combo.bonusStats.wealth⟩
  let totalSpent := (collapseResults.map (·.tokenInvested)).sum
  let remaining := max 0 (totalBudget - totalSpent)
  let carryOver := jsRound (remaining * (1/2))
  let meltdownOccurred := decide (totalSpent > totalBudget * (6/5))
  let itemsEarned := (eventCards.map (·.specialItems)).flatten ++ combo.bonusItem.toList
  { overallGrade := calculateOverallGrade eventCards statDelta meltdownOccurred
    collapseResults := collapseResults
    eventCards := eventCards
    tokenSettlement :=
      { totalBudget := totalBudget
        totalSpent := totalSpent
        totalRemaining := remaining
        surplus := remaining
        carryOver := carryOver
        meltdownOccurred := meltdownOccurred }
    statDelta := statDelta
    itemsEarned := itemsEarned }

-- ==================== Agent factory (`agents.ts`) ====================

/-- Embedding of `DEFAULT_RESOURCE_INVENTORY` from `agents.ts`. -/
def DEFAULT_RESOURCE_INVENTORY : ResourceInventory := ⟨16, 100, 50, 500⟩

/-- Embedding of `createDefaultAgentState` from `agents.ts`. -/
def createDefaultAgentState (id : AgentId) : AgentState :=
  { id := id
    currentWeight := 1
    resourceInventory := DEFAULT_RESOURCE_INVENTORY
    status := .IDLE
    satisfaction := 50
    influence := 25
    isSanctioned := false }

/-- Embedding of `createAllAgentStates` from `agents.ts`. -/
def createAllAgentStates : List AgentState := ALL_AGENT_IDS.map createDefaultAgentState

-- ==================== Concrete scenario inputs ====================

/-- A single agent state with the given id, weight and satisfaction and
default resources (test fixture). -/
def mkAgent (id : AgentId) (w sat : ℚ) : AgentState :=
  { id := id
    currentWeight := w
    resourceInventory := DEFAULT_RESOURCE_INVENTORY
    status := .IDLE
    satisfaction := sat
    influence := 25
    isSanctioned := false }

/-- A schedule block fixture. -/
def mkBlock (id name : String) (cost : ℚ) (dl : Bool) (owner : AgentId) :
    ScheduleBlock :=
  { id := id
    taskName := name
    tokenCost := cost
    isDeadline := dl
    isLocked := false
    ownerAgent := owner
    escrowState := none
    finalGrade := none }

/-- A neutral user profile (no MBTI letters, mid rigidity). -/
def neutralProfile : UserProfile := { mbtiType := none, rigidityCoefficient := 1/2 }

/-- Budget-overrun scenario: four fully satisfied agents of equal weight. -/
def overrunCtx : CouncilCtx :=
  { agentStates :=
      [mkAgent .ENTJ 1 100, mkAgent .ISFJ 1 100, mkAgent .INFJ 1 100, mkAgent .ESTP 1 100]
    userProfile := neutralProfile }

/-- Budget-overrun scenario: one cost-5 task per agent. -/
def overrunBlocks : List ScheduleBlock :=
  [mkBlock "t1" "a" 5 false .ENTJ, mkBlock "t2" "b" 5 false .ISFJ,
   mkBlock "t3" "c" 5 false .INFJ, mkBlock "t4" "d" 5 false .ESTP]

/-- Deadline-failure scenario: the deadline task's owner has weight 0 (and
hence budget 0); the other three agents are ordinary. -/
def deadlineCtx : CouncilCtx :=
  { agentStates :=
      [mkAgent .ENTJ 0 0, mkAgent .ISFJ 1 0, mkAgent .INFJ 1 0, mkAgent .ESTP 1 0]
    userProfile := neutralProfile }

/-- Deadline-failure scenario: a single deadline block owned by the
zero-budget agent. -/
def deadlineBlocks : List ScheduleBlock := [mkBlock "d1" "deadline" 5 true .ENTJ]

/-- A single mid-weight agent (convergence fixture). -/
def convAgent : AgentState := mkAgent .ENTJ 1 50

/-- A block whose escrow is already `RELEASED`. -/
def relBlock : ScheduleBlock :=
  { mkBlock "r1" "released" 10 false .ENTJ with escrowState := some .RELEASED }

/-- A block whose escrow is `BURNED`. -/
def burnedBlock : ScheduleBlock :=
  { mkBlock "b1" "burned" 10 false .ENTJ with escrowState := some .BURNED }

/-- A collapse result with 100 invested tokens (meltdown fixture). -/
def cr100 : CollapseResult :=
  { taskId := "m1"
    taskName := "big"
    ownerAgent := .ENTJ
    initialGrade := .A
    finalGrade := .A
    tokenInvested := 100
    levelCosts := getTaskLevelCosts 100
    tradedWith := none
    isDeadline := false }

/-- All four agents approve with weight 1. -/
def votesAllApprove : AgentId → VoteEntry := fun _ => ⟨.APPROVE, 1⟩

/-- Three approvals, but the explorer vetoes. -/
def votesWithVeto : AgentId → VoteEntry := fun a =>
  if a = .ESTP then ⟨.VETO, 1⟩ else ⟨.APPROVE, 1⟩

/-- Log window whose last two entries are by two different agents
(`INFJ` then `ISFJ`). -/
def logsTwoSpeakers : List CouncilLogEntry :=
  [⟨some .INFJ, .SPEECH⟩, ⟨some .ISFJ, .SPEECH⟩]

/-- Log window whose last two entries are both by `ESTP`. -/
def logsBothESTP : List CouncilLogEntry :=
  [⟨some .ESTP, .SPEECH⟩, ⟨some .ESTP, .PROPOSAL⟩]

-- ==================== Helper lemmas ====================

theorem insertOrdered_ne_nil (le : α → α → Bool) (x : α) (l : List α) :
    insertOrdered le x l ≠ [] := by
  cases l with
  | nil => simp [insertOrdered]
  | cons y ys =>
    simp only [insertOrdered]
    split <;> simp

theorem sortBy_ne_nil (le : α → α → Bool) (x : α) (l : List α) :
    sortBy le (x :: l) ≠ [] := by
  simp only [sortBy]
  exact insertOrdered_ne_nil le x (sortBy le l)

theorem dominantOf_isSome (agentStates : List AgentState) (h : agentStates ≠ []) :
    ∃ d, dominantOf agentStates = some d := by
  cases agentStates with
  | nil => exact absurd rfl h
  | cons a l =>
    unfold dominantOf
    cases hs : sortBy dominanceOrder (a :: l) with
    | nil => exact absurd hs (sortBy_ne_nil dominanceOrder a l)
    | cons b bs => exact ⟨b.id, rfl⟩

theorem findQ_eq_some (p : α → Bool) (l : List α) (x : α)
    (h : findQ p l = some x) : p x = true := by
  induction l with
  | nil => simp [findQ] at h
  | cons y ys ih =>
    rw [findQ] at h
    by_cases hy : p y
    · rw [if_pos hy] at h
      obtain rfl : y = x := by injection h
      exact hy
    · rw [if_neg hy] at h
      exact ih h

theorem rotationSpeaker_double_ne (tick : ℕ) (a : AgentId) :
    rotationSpeaker tick [a, a] ≠ a := by
  unfold rotationSpeaker
  simp only [List.length_cons, List.length_nil, Nat.zero_add]
  have h4 : tick % 4 = 0 ∨ tick % 4 = 1 ∨ tick % 4 = 2 ∨ tick % 4 = 3 := by omega
  rcases h4 with h | h | h | h <;> rw [h] <;> cases a <;> decide

theorem tallyStep_third (votes : AgentId → VoteEntry) (acc : ℚ × ℚ × Option AgentId)
    (a : AgentId) :
    (tallyStep votes acc a).2.2 =
      if (votes a).vote = .VETO then some a else acc.2.2 := by
  unfold tallyStep
  cases h : (votes a).vote <;> simp [h]

theorem tallyFold_veto_isSome (votes : AgentId → VoteEntry) (l : List AgentId)
    (acc : ℚ × ℚ × Option AgentId) :
    ((l.foldl (tallyStep votes) acc).2.2).isSome =
      (acc.2.2.isSome || l.any fun a => decide ((votes a).vote = .VETO)) := by
  induction l generalizing acc with
  | nil => simp
  | cons x xs ih =>
    rw [List.foldl_cons, ih, List.any_cons]
    rw [tallyStep_third]
    by_cases h : (votes x).vote = .VETO <;> simp [h, Bool.or_assoc]

-- ==================== C1: collapse budget conservation ====================

set_option maxHeartbeats 4000000 in
/-- C1: the budget-conservation claim fails on the code. With four fully
satisfied agents of weight 1 and `totalBudget = 2`, each per-agent budget
`Math.round(2 × 1/4 × 1) = round(0.5)` rounds up to 1, each agent buys its
task at grade `C` for 1 token, no trade fires, and the collapse invests 4
tokens in total — strictly more than the total budget of 2. -/
theorem C1_budget_conservation_fails_on_rounding :
    ((collapseAllTasks overrunCtx overrunBlocks 2).results.map (·.tokenInvested)).sum = 4
      ∧ (collapseAllTasks overrunCtx overrunBlocks 2).trades = []
      ∧ ¬ ((4 : ℚ) ≤ 2) := by
  norm_num [collapseAllTasks, calculateAgentBudgets, allocateGradesForAgent, allocationOrder,
    sortBy, insertOrdered, gmSet, gmGet, attemptP2PTrade, calculateTradeRisk,
    calculateTradeBenefit, getAgentAffinity, gradeRank, lowerGrade, getTaskLevelCosts,
    TaskLevelCosts.costOf, jsRound, ALL_AGENT_IDS, overrunCtx, overrunBlocks, mkAgent, mkBlock,
    neutralProfile, updAgent, findQ, filterQ, anyQ, allQ, findSomeQ] <;>
    (try simp [collapseAllTasks, calculateAgentBudgets, allocateGradesForAgent, allocationOrder,
    sortBy, insertOrdered, gmSet, gmGet, attemptP2PTrade, calculateTradeRisk,
    calculateTradeBenefit, getAgentAffinity, gradeRank, lowerGrade, getTaskLevelCosts,
    TaskLevelCosts.costOf, jsRound, ALL_AGENT_IDS, overrunCtx, overrunBlocks, mkAgent, mkBlock,
    neutralProfile, updAgent, findQ, filterQ, anyQ, allQ, findSomeQ]) <;> try norm_num

-- ==================== C2: deadline task protection ====================

/-- C2: the deadline invariant fails on the code. The deadline task's owner
has weight 0, hence budget 0; even the grade-`C` cost (1 token) does not
fit, so `allocateGradesForAgent` assigns grade `D` to the deadline task, and
the code's own `validateCollapseResults` rejects the output. -/
theorem C2_deadline_task_collapses_to_D :
    ((collapseAllTasks deadlineCtx deadlineBlocks 10).results.map fun r =>
        (r.isDeadline, r.finalGrade)) = [(true, .D)]
      ∧ validateCollapseResults (collapseAllTasks deadlineCtx deadlineBlocks 10).results = false := by
  norm_num [collapseAllTasks, calculateAgentBudgets, allocateGradesForAgent, allocationOrder,
    sortBy, insertOrdered, gmSet, gmGet, attemptP2PTrade, calculateTradeRisk,
    calculateTradeBenefit, getAgentAffinity, gradeRank, lowerGrade, getTaskLevelCosts,
    TaskLevelCosts.costOf, jsRound, ALL_AGENT_IDS, deadlineCtx, deadlineBlocks, mkAgent, mkBlock,
    neutralProfile, updAgent, validateCollapseResults, findQ, filterQ, anyQ, allQ, findSomeQ] <;>
    (try simp [collapseAllTasks, calculateAgentBudgets, allocateGradesForAgent, allocationOrder,
    sortBy, insertOrdered, gmSet, gmGet, attemptP2PTrade, calculateTradeRisk,
    calculateTradeBenefit, getAgentAffinity, gradeRank, lowerGrade, getTaskLevelCosts,
    TaskLevelCosts.costOf, jsRound, ALL_AGENT_IDS, deadlineCtx, deadlineBlocks, mkAgent, mkBlock,
    neutralProfile, updAgent, validateCollapseResults, findQ, filterQ, anyQ, allQ, findSomeQ]) <;> try norm_num

-- ==================== C3: one CollapseResult per task ====================

/-- C3: the session driver's collapse step (`collapseFromAgentStates`)
produces exactly one `CollapseResult` per agent state — always four for the
orchestrator's fixed agent set — independently of the task list, so a
session whose task list does not have exactly four tasks cannot get one
result per task. -/
theorem C3_collapse_results_are_per_agent :
    (∀ ctx : CouncilCtx, (collapseFromAgentStates ctx).length = ctx.agentStates.length)
      ∧ (collapseFromAgentStates ⟨createAllAgentStates, neutralProfile⟩).length = 4 := by
  constructor
  · intro ctx
    simp [collapseFromAgentStates]
  · simp [collapseFromAgentStates, createAllAgentStates, ALL_AGENT_IDS]

-- ==================== C5: escrow state machine ====================

/-- C5 counterexample: a `BURNED` block is not absorbing — `releaseEscrow`
moves it to `RELEASED`. -/
theorem C5_counterexample :
    burnedBlock.escrowState = some .BURNED
      ∧ (releaseEscrow burnedBlock .B).escrowState ≠ some .BURNED := by
  decide

/-- C5 (amended): a `RELEASED` block stays `RELEASED` (in particular never
returns to `FROZEN`) under every sequence of escrow operations; `freezeEscrow`
preserves `BURNED`; but `releaseEscrow` unconditionally produces `RELEASED`,
so `BURNED` is not absorbing under `releaseEscrow`. -/
theorem C5_amended_escrow_monotonic (b : ScheduleBlock) (ops : List EscrowOp)
    (g : TaskGrade) :
    (b.escrowState = some .RELEASED →
        (applyEscrowOps b ops).escrowState = some .RELEASED)
      ∧ (b.escrowState = some .BURNED →
          (freezeEscrowBlock b).escrowState = some .BURNED)
      ∧ (releaseEscrow b g).escrowState = some .RELEASED := by
  refine ⟨?_, ?_, rfl⟩
  · intro h
    induction ops generalizing b with
    | nil => exact h
    | cons op ops ih =>
      rw [applyEscrowOps, List.foldl_cons]
      apply ih
      cases op with
      | freeze => simp [applyEscrowOp, freezeEscrowBlock, h]
      | release g => simp [applyEscrowOp, releaseEscrow]
  · intro h
    simp [freezeEscrowBlock, h]

/-- C5 witness: the amended escrow monotonicity evaluated on a released and
a burned block. -/
theorem C5_amended_escrow_monotonic_witness :
    (applyEscrowOps relBlock [.freeze, .release .A, .freeze]).escrowState = some .RELEASED
      ∧ (freezeEscrowBlock burnedBlock).escrowState = some .BURNED :=
  ⟨(C5_amended_escrow_monotonic relBlock [.freeze, .release .A, .freeze] .A).1 (by decide),
   (C5_amended_escrow_monotonic burnedBlock [] .A).2.1 (by decide)⟩

-- ==================== C6: settlement token close-out ====================

/-- C6: for every collapse-result list, budget and random source, the
settlement report satisfies `totalSpent = Σ tokenInvested`,
`totalRemaining = max(0, budget - spent)`, `carryOver = round(remaining × 0.5)`,
`meltdownOccurred ↔ spent > budget × 1.2`, and a meltdown forces the overall
grade to `D` regardless of the event cards. -/
theorem C6_settlement_token_closeout (crs : List CollapseResult)
    (budget luckMod : ℚ) (draw : ℕ → ℕ → ℚ) :
    (buildSettlementReport crs budget luckMod draw).tokenSettlement.totalSpent
        = (crs.map (·.tokenInvested)).sum
      ∧ (buildSettlementReport crs budget luckMod draw).tokenSettlement.totalRemaining
        = max 0 (budget - (crs.map (·.tokenInvested)).sum)
      ∧ (buildSettlementReport crs budget luckMod draw).tokenSettlement.carryOver
        = jsRound (max 0 (budget - (crs.map (·.tokenInvested)).sum) * (1/2))
      ∧ ((buildSettlementReport crs budget luckMod draw).tokenSettlement.meltdownOccurred = true
          ↔ (crs.map (·.tokenInvested)).sum > budget * (6/5))
      ∧ ((buildSettlementReport crs budget luckMod draw).tokenSettlement.meltdownOccurred = true
          → (buildSettlementReport crs budget luckMod draw).overallGrade = .D) := by
  refine ⟨rfl, rfl, rfl, decide_eq_true_iff, ?_⟩
  intro h
  have h2 : decide ((crs.map (·.tokenInvested)).sum > budget * (6/5)) = true := h
  show calculateOverallGrade _ _
      (decide ((crs.map (·.tokenInvested)).sum > budget * (6/5))) = .D
  rw [h2]
  rfl

/-- C6 witness: a 100-token spend against a 10-token budget melts down and
forces overall grade `D`. -/
theorem C6_settlement_token_closeout_witness :
    (buildSettlementReport [cr100] 10 0 (fun _ _ => 0)).tokenSettlement.meltdownOccurred = true
      ∧ (buildSettlementReport [cr100] 10 0 (fun _ _ => 0)).overallGrade = .D := by
  have hm : (buildSettlementReport [cr100] 10 0 (fun _ _ => 0)).tokenSettlement.meltdownOccurred = true :=
    (C6_settlement_token_closeout [cr100] 10 0 (fun _ _ => 0)).2.2.2.1.mpr (by norm_num [cr100])
  exact ⟨hm, (C6_settlement_token_closeout [cr100] 10 0 (fun _ _ => 0)).2.2.2.2 hm⟩

-- ==================== C8: forced critical fail ====================

/-- C8: for every random source and luck modifier, a grade-`D` task or a
non-positive token investment is rolled as `CRITICAL_FAIL` regardless of the
computed score. -/
theorem C8_roll_forced_critical_fail (draw : ℕ → ℚ) (tokenInvested : ℚ)
    (grade : TaskGrade) (luckModifier : ℚ)
    (h : grade = .D ∨ tokenInvested ≤ 0) :
    (rollEnhanced draw tokenInvested grade luckModifier).type = .CRITICAL_FAIL := by
  rcases h with h | h
  · subst h; simp [rollEnhanced]
  · simp [rollEnhanced, h]

/-- C8 witness: a grade-`D` roll and a zero-investment roll both come out as
`CRITICAL_FAIL`. -/
theorem C8_roll_forced_critical_fail_witness :
    (rollEnhanced (fun _ => 0) 100 .D 0).type = .CRITICAL_FAIL
      ∧ (rollEnhanced (fun _ => 0) 0 .S 0).type = .CRITICAL_FAIL :=
  ⟨C8_roll_forced_critical_fail (fun _ => 0) 100 .D 0 (Or.inl rfl),
   C8_roll_forced_critical_fail (fun _ => 0) 0 .S 0 (Or.inr (by norm_num))⟩

-- ==================== C9: roll reproducibility ====================

/-- C9: `rollEnhanced` is reproducible — it reads only the first two draws of
its random source, so two runs whose sources agree on those draws (in
particular two runs from the same seed) and whose inputs coincide produce
identical `(type, score, luck)` triples. -/
theorem C9_roll_reproducible (draw draw2 : ℕ → ℚ) (tokenInvested : ℚ)
    (grade : TaskGrade) (luckModifier : ℚ)
    (h : ∀ i < 2, draw i = draw2 i) :
    ((rollEnhanced draw tokenInvested grade luckModifier).type,
      (rollEnhanced draw tokenInvested grade luckModifier).score,
      (rollEnhanced draw tokenInvested grade luckModifier).luck)
      = ((rollEnhanced draw2 tokenInvested grade luckModifier).type,
          (rollEnhanced draw2 tokenInvested grade luckModifier).score,
          (rollEnhanced draw2 tokenInvested grade luckModifier).luck) := by
  have h0 : draw 0 = draw2 0 := h 0 (by norm_num)
  have h1 : draw 1 = draw2 1 := h 1 (by norm_num)
  simp only [rollEnhanced, h0, h1]

/-- C9 witness: two identical sources at one-quarter draws give the same
triple for a 100-token grade-`B` roll. -/
theorem C9_roll_reproducible_witness :
    ((rollEnhanced (fun _ => 1/4) 100 .B 0).type,
      (rollEnhanced (fun _ => 1/4) 100 .B 0).score,
      (rollEnhanced (fun _ => 1/4) 100 .B 0).luck)
      = ((rollEnhanced (fun i => 1/4 + 0 * i) 100 .B 0).type,
          (rollEnhanced (fun i => 1/4 + 0 * i) 100 .B 0).score,
          (rollEnhanced (fun i => 1/4 + 0 * i) 100 .B 0).luck) :=
  C9_roll_reproducible (fun _ => 1/4) (fun i => 1/4 + 0 * i) 100 .B 0
    (fun i _ => by push_cast; ring)

-- ==================== C4: convergence window ====================

/-- C4 counterexample: the claim as stated fails when the configured
`maxRounds` lies below the minimum-round guard of 10. At `maxRounds = 5`
and `round = 7 ≥ maxRounds`, `forceConvergence` still returns
`shouldForce = false`, because the `round < minRounds` check fires first. -/
theorem C4_claim_counterexample :
    5 ≤ 7 ∧ forceConvergence [convAgent] 7 5 10 none = some ⟨false, none⟩ := by
  decide

/-- C4 (amended): for a nonempty agent list and a configured `maxRounds` of
at least the minimum 10 rounds, `forceConvergence` with `minRounds = 10`
returns `shouldForce = false` whenever `round < 10` and `shouldForce = true`
whenever `round ≥ maxRounds`. -/
theorem C4_amended_convergence_window (agentStates : List AgentState)
    (round maxRounds : ℕ) (previousStates : Option (List AgentState))
    (h1 : 10 ≤ maxRounds) (h2 : agentStates ≠ []) :
    (round < 10 →
        forceConvergence agentStates round maxRounds 10 previousStates = some ⟨false, none⟩)
      ∧ (maxRounds ≤ round →
          (forceConvergence agentStates round maxRounds 10 previousStates).map
            (·.shouldForce) = some true) := by
  constructor
  · intro hr
    unfold forceConvergence
    rw [if_pos hr]
  · intro hr
    have hnot : ¬ round < 10 := by omega
    have hnot2 : ¬ round < maxRounds := by omega
    unfold forceConvergence
    rw [if_neg hnot, if_neg hnot2]
    obtain ⟨d, hd⟩ := dominantOf_isSome agentStates h2
    rw [hd]
    rfl

/-- C4 witness: the amended convergence window evaluated at rounds 3 and 30
of a 25-round session with a single agent. -/
theorem C4_amended_convergence_window_witness :
    forceConvergence [convAgent] 3 25 10 none = some ⟨false, none⟩
      ∧ (forceConvergence [convAgent] 30 25 10 none).map (·.shouldForce) = some true :=
  ⟨(C4_amended_convergence_window [convAgent] 3 25 none (by norm_num) (by simp)).1
      (by norm_num),
   (C4_amended_convergence_window [convAgent] 30 25 none (by norm_num) (by simp)).2
      (by norm_num)⟩

-- ==================== C7: vote tallying ====================

/-- C7: any veto forces `VETOED` regardless of the weighted sum; with no
veto, the sign of the signed approval sum decides between `APPROVED`,
`REJECTED` and `DEADLOCKED`. -/
theorem C7_tally_votes (votes : AgentId → VoteEntry) (pid : String) :
    ((∃ a, (votes a).vote = .VETO) → (tallyVotes votes pid).result = .VETOED)
      ∧ ((∀ a, (votes a).vote ≠ .VETO) →
          (((tallyVotes votes pid).approvalScore > 0 →
              (tallyVotes votes pid).result = .APPROVED)
            ∧ ((tallyVotes votes pid).approvalScore < 0 →
                (tallyVotes votes pid).result = .REJECTED)
            ∧ ((tallyVotes votes pid).approvalScore = 0 →
                (tallyVotes votes pid).result = .DEADLOCKED))) := by
  constructor
  · rintro ⟨a, ha⟩
    have hmem : a ∈ ALL_AGENT_IDS := by cases a <;> simp [ALL_AGENT_IDS]
    have hany : (ALL_AGENT_IDS.any fun x => decide ((votes x).vote = .VETO)) = true := by
      rw [List.any_eq_true]
      exact ⟨a, hmem, by simp [ha]⟩
    have hsome := tallyFold_veto_isSome votes ALL_AGENT_IDS (0, 0, none)
    rw [hany] at hsome
    simp only [Option.isSome_none, Bool.false_or] at hsome
    simp [tallyVotes, hsome]
  · intro h
    have hany : (ALL_AGENT_IDS.any fun x => decide ((votes x).vote = .VETO)) = false := by
      rw [List.any_eq_false]
      intro x _
      simp [h x]
    have hsome := tallyFold_veto_isSome votes ALL_AGENT_IDS (0, 0, none)
    rw [hany] at hsome
    simp only [Option.isSome_none, Bool.or_false] at hsome
    refine ⟨?_, ?_, ?_⟩ <;> intro hcond
    · have hc : (ALL_AGENT_IDS.foldl (tallyStep votes) (0, 0, none)).1 > 0 := hcond
      simp [tallyVotes, hsome, hc]
    · have hc : (ALL_AGENT_IDS.foldl (tallyStep votes) (0, 0, none)).1 < 0 := hcond
      have hc2 : ¬ (ALL_AGENT_IDS.foldl (tallyStep votes) (0, 0, none)).1 > 0 := by linarith
      simp [tallyVotes, hsome, hc, hc2]
    · have hc : (ALL_AGENT_IDS.foldl (tallyStep votes) (0, 0, none)).1 = 0 := hcond
      simp [tallyVotes, hsome, hc]

/-- C7 witness: a vote with one `VETO` ends `VETOED`; four approvals of
weight 1 end `APPROVED`. -/
theorem C7_tally_votes_witness :
    (tallyVotes votesWithVeto "p1").result = .VETOED
      ∧ (tallyVotes votesAllApprove "p2").result = .APPROVED := by
  constructor
  · exact (C7_tally_votes votesWithVeto "p1").1 ⟨.ESTP, by decide⟩
  · exact ((C7_tally_votes votesAllApprove "p2").2
      (fun a => by cases a <;> simp [votesAllApprove])).1
      (by norm_num [tallyVotes, tallyStep, ALL_AGENT_IDS, votesAllApprove])

-- ==================== C10: speaker selection inter-turn gap ====================

/-- C10 counterexample: with the round-robin pick `ISFJ` (tick 1) having
spoken last turn, selection advances one position onto `INFJ` — but `INFJ`
authored the other of the last two entries, so an agent who spoke within
the last two turns is selected again. -/
theorem C10_claim_counterexample :
    (selectSpeakerForTick 1 [] logsTwoSpeakers).speaker = .INFJ
      ∧ .INFJ ∈ (lastN 2 logsTwoSpeakers).filterMap (fun l => l.agentId) := by
  decide

/-- C10 (amended): an agent that authored both of the last two log entries
is never selected: the rotation advance skips it, and the controversy
override only picks agents outside the last two speakers. -/
theorem C10_amended_no_double_speaker (tick : ℕ) (agentStates : List AgentState)
    (logs : List CouncilLogEntry) (a : AgentId)
    (h : (lastN 2 logs).map (fun l => l.agentId) = [some a, some a]) :
    (selectSpeakerForTick tick agentStates logs).speaker ≠ a := by
  have hrs : (lastN 2 logs).filterMap (fun l => l.agentId) = [a, a] := by
    rcases hl : lastN 2 logs with _ | ⟨x, rest1⟩
    · rw [hl] at h; simp at h
    · rcases rest1 with _ | ⟨y, rest⟩
      · rw [hl] at h; simp at h
      · rw [hl] at h
        simp only [List.map_cons, List.cons.injEq] at h
        obtain ⟨hx, hy, hrest⟩ := h
        have hrest2 : rest = [] := by simpa using hrest
        subst hrest2
        simp [List.filterMap, hx, hy]
  have hrot : rotationSpeaker tick [a, a] ≠ a := rotationSpeaker_double_ne tick a
  unfold selectSpeakerForTick
  rw [hrs]
  by_cases h7 : tick % 7 = 0
  · rw [if_pos h7]
    dsimp only
    split
    · next hcond =>
      split
      · next c hfind =>
        have hc := findQ_eq_some _ _ _ hfind
        intro hca
        have hca2 : c = a := hca
        subst hca2
        simp [anyQ] at hc
      · next hfind => exact hrot
    · exact hrot
  · rw [if_neg h7]
    exact hrot

/-- C10 witness: `ESTP` spoke in both of the last two turns and is skipped
at tick 3 (where it would be the round-robin pick). -/
theorem C10_amended_no_double_speaker_witness :
    (lastN 2 logsBothESTP).map (fun l => l.agentId) = [some .ESTP, some .ESTP]
      ∧ (selectSpeakerForTick 3 [] logsBothESTP).speaker ≠ .ESTP :=
  ⟨by decide, C10_amended_no_double_speaker 3 [] logsBothESTP .ESTP (by decide)⟩

end Council
